import Mathlib

/-!
Verification of the product-management client (state container, API client,
retry policy) against its natural-language specification.

The definitions below are a shallow embedding of the TypeScript sources:

* `productService` (`getProducts`, `searchProducts`, `getProduct`,
  `createProduct`, `updateProduct`, `deleteProduct`, `getCategories`):
  the Remote API Client, including the 429 retry/backoff loop and the
  polymorphic response normalization.
* `productsSlice` (reducers `setSearchQuery`, `setCurrentPage`,
  `fetchProducts.pending/fulfilled/rejected`, `deleteProduct.fulfilled`):
  the Catalog State Container.
* `Auth.handleSubmit` / `authService.login`: the login flow.
* `Products.totalPages`: the pagination computation of the list view.

Network effects are modelled by passing the would-be HTTP responses as
explicit arguments (`env`), and each operation reports how many network
calls it performed, so that "fails before any network call" is a statement
about the model.  JavaScript truthiness of `x || y` on numbers (0 is falsy)
and on strings (the empty string is falsy) is modelled by `jsOrNat` /
`jsTruthyStr`; JavaScript `String.prototype.includes` by `jsIncludes`.
-/

deriving instance DecidableEq for Except

namespace ProductApp

/-- `Category` record (productService.ts). -/
structure Category where
  id : String
  name : String
  image : String
  description : Option String
  createdAt : String
  updatedAt : String
deriving DecidableEq, Repr

/-- `Product` record (productService.ts). -/
structure Product where
  id : String
  name : String
  description : String
  images : List String
  price : Int
  slug : String
  createdAt : String
  updatedAt : String
  category : Category
deriving DecidableEq, Repr

/-- `getAuthHeaders`: reads the stored token; throws
`'No authentication token found'` when it is falsy (absent, or the empty
string), otherwise builds the Content-Type/Authorization header pair.
The stored token is passed in as `token : Option String` (`none` = no
`authToken` key in storage). -/
def getAuthHeaders (token : Option String) : Except String (List (String × String)) :=
  match token with
  | none => .error "No authentication token found"
  | some t =>
      if t = "" then .error "No authentication token found"
      else .ok [("Content-Type", "application/json"), ("Authorization", "Bearer " ++ t)]

/-- HTTP success test: `response.ok` is true iff the status is in 200..299. -/
def statusOk (status : Nat) : Bool :=
  200 ≤ status && status ≤ 299

/-- JavaScript `x || y` on an optional number: an absent field and the
number 0 are both falsy and fall through to `y`. -/
def jsOrNat (x : Option Nat) (y : Nat) : Nat :=
  match x with
  | some n => if n = 0 then y else n
  | none => y

/-- JavaScript `x || y` on an optional string: an absent field and the
empty string are falsy and fall through to `y`. -/
def jsOrStr (x : Option String) (y : String) : String :=
  match x with
  | some s => if s = "" then y else s
  | none => y

/-- JavaScript truthiness of an optional string (used for
`if (searchText)` and `if (categoryId)`): truthy iff present and
non-empty. -/
def jsTruthyStr (x : Option String) : Bool :=
  match x with
  | some s => s ≠ ""
  | none => false

/-- JavaScript `s.includes(t)` (substring test), modelled as a contiguous
sublist test on the character lists. -/
def jsIncludes (s t : String) : Bool :=
  decide (t.toList <:+: s.toList)

/-- Parsed JSON body of a products list response.  The source accepts
either a bare array, or an object carrying the items under `products` or
`data` and the total under `total` or `totalCount` (each field possibly
absent). -/
inductive ProductsBody where
  | arr (items : List Product)
  | obj (products : Option (List Product)) (data : Option (List Product))
      (total : Option Nat) (totalCount : Option Nat)
deriving DecidableEq, Repr

/-- Response normalization of `getProducts` (productService.ts lines
97-117).  `xTotalCount` is the `x-total-count` header when present (the
source reads it as a string and `parseInt`s it; we carry the parsed
value).

* bare array: items are the array, total is the header if present else the
  array length;
* object: items are `data.products || data.data || []` (note that in JS any
  array, even an empty one, is truthy, so only an absent field falls
  through), total is `data.total || data.totalCount || (header or 0)` with
  JS `||` semantics (0 is falsy). -/
def normalizeProducts (xTotalCount : Option Nat) (body : ProductsBody) :
    List Product × Nat :=
  match body with
  | .arr items =>
      (items, match xTotalCount with
        | some n => n
        | none => items.length)
  | .obj products data total totalCount =>
      let items := match products with
        | some ps => ps
        | none => match data with
          | some ds => ds
          | none => []
      let t := jsOrNat total (jsOrNat totalCount
        (match xTotalCount with | some n => n | none => 0))
      (items, t)

/-- One would-be HTTP response to a `GET /products` request: status,
`Retry-After` header (seconds, absent when the header is missing),
`x-total-count` header, and parsed body. -/
structure ProductsResp where
  status : Nat
  retryAfter : Option Nat
  xTotalCount : Option Nat
  body : ProductsBody
deriving DecidableEq, Repr

/-- Outcome of one attempted `fetch` of the products list: either a
completed HTTP response, or the fetch itself rejecting (network error). -/
inductive FetchOutcome where
  | resp (r : ProductsResp)
  | netError (msg : String)
deriving DecidableEq, Repr

/-- Result of `getProducts`: the returned value or thrown error, the
backoff delays that were slept (in order, in milliseconds), and the number
of network calls performed. -/
structure GPResult where
  result : Except String (List Product × Nat)
  delays : List Nat
  fetchCalls : Nat
deriving DecidableEq, Repr

def MAX_RETRIES : Nat := 3

def BASE_DELAY : Nat := 1000

/-- The exponential backoff delay of `getProducts`:
`Math.min(BASE_DELAY * Math.pow(2, retryCount), 30000)`. -/
def backoffDelay (retryCount : Nat) : Nat :=
  min (BASE_DELAY * 2 ^ retryCount) 30000

/-- `productService.getProducts(offset, limit, categoryId, retryCount)`
(productService.ts lines 38-128).  `env n` is the outcome the network
would produce for the attempt made at `retryCount = n`; the query-string
arguments `offset`/`limit`/`categoryId` do not influence control flow and
are omitted from the model.

Control-flow notes, matching the source's try/catch:
* `getAuthHeaders()` throwing (no token) happens inside the `try` before
  `fetch`, so it is caught by the `catch`, which retries while
  `retryCount < MAX_RETRIES` and the message does not contain
  `'Session expired'` — hence no network call is ever made without a token;
* on 429 with `retryCount < MAX_RETRIES`, the delay is
  `Retry-After * 1000` when that header is present else `backoffDelay`;
  the retry is `return this.getProducts(...)` — returning the un-awaited
  promise from inside `try`, so a rejection of the recursive call bypasses
  this call's `catch`;
* on 429 with `retryCount ≥ MAX_RETRIES`, the rate-limit error is thrown
  inside `try` and caught by this call's own `catch`, which rethrows it
  unchanged because `retryCount < MAX_RETRIES` fails;
* on 401, the thrown message contains `'Session expired'`, so the `catch`
  rethrows without retrying;
* any other non-ok status throws a generic message that the `catch`
  retries with the same backoff schedule while `retryCount < MAX_RETRIES`;
* a fetch rejection (network error) is likewise caught and retried unless
  its message contains `'Session expired'`. -/
def getProducts (env : Nat → FetchOutcome) (token : Option String)
    (retryCount : Nat) : GPResult :=
  match getAuthHeaders token with
  | .error msg =>
      if h : retryCount < MAX_RETRIES then
        if jsIncludes msg "Session expired" then ⟨.error msg, [], 0⟩
        else
          let r := getProducts env token (retryCount + 1)
          ⟨r.result, backoffDelay retryCount :: r.delays, r.fetchCalls⟩
      else ⟨.error msg, [], 0⟩
  | .ok _ =>
      match env retryCount with
      | .netError msg =>
          if h : retryCount < MAX_RETRIES then
            if jsIncludes msg "Session expired" then ⟨.error msg, [], 1⟩
            else
              let r := getProducts env token (retryCount + 1)
              ⟨r.result, backoffDelay retryCount :: r.delays, r.fetchCalls + 1⟩
          else ⟨.error msg, [], 1⟩
      | .resp resp =>
          if resp.status = 429 then
            if h : retryCount < MAX_RETRIES then
              let d := match resp.retryAfter with
                | some secs => secs * 1000
                | none => backoffDelay retryCount
              let r := getProducts env token (retryCount + 1)
              ⟨r.result, d :: r.delays, r.fetchCalls + 1⟩
            else ⟨.error "Rate limit exceeded. Please try again later.", [], 1⟩
          else if !statusOk resp.status then
            if resp.status = 401 then
              ⟨.error "Session expired. Please log in again.", [], 1⟩
            else
              if h : retryCount < MAX_RETRIES then
                let r := getProducts env token (retryCount + 1)
                ⟨r.result, backoffDelay retryCount :: r.delays, r.fetchCalls + 1⟩
              else
                ⟨.error ("Failed to fetch products: " ++ toString resp.status), [], 1⟩
          else ⟨.ok (normalizeProducts resp.xTotalCount resp.body), [], 1⟩
termination_by MAX_RETRIES - retryCount
decreasing_by all_goals (simp_wf; omega)

/-- Would-be response to `GET /products/search?searchedText=...`:
status and parsed body (the array of matches). -/
structure SearchResp where
  status : Nat
  body : List Product
deriving DecidableEq, Repr

/-- `productService.searchProducts(query)` (productService.ts lines
130-140): one fetch with auth headers, throws
`'Failed to search products'` on any non-ok status, else returns the
parsed array.  The pair's second component counts network calls. -/
def searchProducts (token : Option String) (env : SearchResp) :
    Except String (List Product) × Nat :=
  match getAuthHeaders token with
  | .error msg => (.error msg, 0)
  | .ok _ =>
      if statusOk env.status then (.ok env.body, 1)
      else (.error "Failed to search products", 1)

/-- Outcome of the direct `GET /products/{identifier}` fetch inside
`getProduct`: a completed ok response whose body is a single record or an
array, a completed non-ok response, or a rejected fetch. -/
inductive DirectFetch where
  | okSingle (p : Product)
  | okArr (items : List Product)
  | notOk (status : Nat)
  | netError (msg : String)
deriving DecidableEq, Repr

/-- `productService.getProduct(identifier)` (productService.ts lines
142-167).

* If the direct fetch completes ok: the body is returned, taking `data[0]`
  when it is an array (`data[0]` of an empty array is JS `undefined`,
  modelled as `.ok none`; otherwise `.ok (some p)`).
* If the direct fetch completes non-ok (e.g. 404): the source falls back to
  `this.getProducts(0, 1, undefined, identifier)`.  Note that in the
  source the identifier is passed as the fourth argument of `getProducts`,
  which is the numeric `retryCount` parameter — not a filter — so the
  fallback request is `GET /products?offset=0&limit=1` with no identifier
  in the query string; `fallback` is the (normalized) result of that
  unfiltered single-item list query.  If it yields at least one product,
  the first one is returned whether or not its id matches `identifier`;
  if it yields none, `'Product not found'` is thrown.  (For a non-numeric
  identifier the JS comparison `identifier < MAX_RETRIES` is false, so the
  fallback call performs no retries; `fallback` is its overall outcome.)
* If the direct fetch rejects, the `catch` rewraps the error with the same
  message and no fallback happens.
The trailing `Nat` counts network calls made directly by `getProduct`
(the fallback's own calls are inside `fallbackCalls`).  `getAuthHeaders()`
throwing (no token) happens inside the `try` before the fetch; the `catch`
rewraps it with the same message and no network call is made. -/
def getProduct (token : Option String) (identifier : String)
    (direct : DirectFetch)
    (fallback : Except String (List Product × Nat)) (fallbackCalls : Nat) :
    Except String (Option Product) × Nat :=
  match getAuthHeaders token with
  | .error msg => (.error msg, 0)
  | .ok _ =>
  match direct with
  | .okSingle p => (.ok (some p), 1)
  | .okArr items => (.ok items.head?, 1)
  | .netError msg => (.error msg, 1)
  | .notOk _ =>
      match fallback with
      | .ok (p :: _, _) => (.ok (some p), 1 + fallbackCalls)
      | .ok ([], _) => (.error "Product not found", 1 + fallbackCalls)
      | .error msg => (.error msg, 1 + fallbackCalls)

/-- Would-be response to a create/update/delete request: status, the
`message` field of the parsed error body (`none` when the body is not
parseable or has no message), and the record the server would echo on
success. -/
structure MutResp where
  status : Nat
  message : Option String
  record : Product
deriving DecidableEq, Repr

/-- `productService.createProduct(productData)` (productService.ts lines
169-181): one fetch; on any non-ok status it throws the fixed message
`'Failed to create product'` — the response body is never read on the
error path — else returns the parsed record. -/
def createProduct (token : Option String) (env : MutResp) :
    Except String Product × Nat :=
  match getAuthHeaders token with
  | .error msg => (.error msg, 0)
  | .ok _ =>
      if statusOk env.status then (.ok env.record, 1)
      else (.error "Failed to create product", 1)

/-- `productService.updateProduct(id, productData)` (productService.ts
lines 183-210): one fetch; on a non-ok status it parses the body
(defaulting to `{}` when unparseable) and throws
`errorData.message || 'Failed to update product'`; else returns the
parsed record. -/
def updateProduct (token : Option String) (env : MutResp) :
    Except String Product × Nat :=
  match getAuthHeaders token with
  | .error msg => (.error msg, 0)
  | .ok _ =>
      if statusOk env.status then (.ok env.record, 1)
      else (.error (jsOrStr env.message "Failed to update product"), 1)

/-- `productService.deleteProduct(id)` (productService.ts lines 212-231):
one fetch; on a non-ok status throws
`errorData.message || 'Failed to delete product'` (body defaulted to `{}`
when unparseable); on success returns `{ id: result.id }` where `result`
is the parsed body.  The surrounding try/catch rewraps any error with the
same message. -/
def deleteProduct (token : Option String) (env : MutResp) :
    Except String String × Nat :=
  match getAuthHeaders token with
  | .error msg => (.error msg, 0)
  | .ok _ =>
      if statusOk env.status then (.ok env.record.id, 1)
      else (.error (jsOrStr env.message "Failed to delete product"), 1)

/-- The URL `getCategories` requests (productService.ts lines 233-238):
`/categories?offset=..&limit=..`, replaced wholesale by
`/categories/search?searchedText=..` when `searchText` is truthy. -/
inductive CategoriesUrl where
  | list (offset limit : Nat)
  | search (searchedText : String)
deriving DecidableEq, Repr

/-- The URL-selection step of `getCategories`: a truthy (present,
non-empty) `searchText` switches to the search endpoint, whose URL carries
no `offset`/`limit` parameters. -/
def categoriesUrl (searchText : Option String) (offset limit : Nat) :
    CategoriesUrl :=
  if jsTruthyStr searchText then .search (searchText.getD "")
  else .list offset limit

/-- Would-be response to a categories request: status, `x-total-count`
header (parsed) and body array. -/
structure CatResp where
  status : Nat
  xTotalCount : Option Nat
  body : List Category
deriving DecidableEq, Repr

/-- Result of `getCategories`: value or error, number of network calls,
and the URL that was requested (`none` when no request was made). -/
structure GCResult where
  result : Except String (List Category × Nat)
  fetchCalls : Nat
  url : Option CategoriesUrl
deriving DecidableEq, Repr

/-- `productService.getCategories(searchText, offset, limit)`
(productService.ts lines 233-260): picks the URL via `categoriesUrl`,
fetches once with auth headers, throws `'Failed to fetch categories'` on a
non-ok status, else returns the body array with total from the
`x-total-count` header when present else the body length. -/
def getCategories (token : Option String) (searchText : Option String)
    (offset limit : Nat) (respond : CategoriesUrl → CatResp) : GCResult :=
  match getAuthHeaders token with
  | .error msg => ⟨.error msg, 0, none⟩
  | .ok _ =>
      let url := categoriesUrl searchText offset limit
      let resp := respond url
      if statusOk resp.status then
        ⟨.ok (resp.body, match resp.xTotalCount with
          | some n => n
          | none => resp.body.length), 1, some url⟩
      else ⟨.error "Failed to fetch categories", 1, some url⟩

/-- `ProductsState` (productsSlice.ts lines 4-16).  `totalCount` is a JS
number that `deleteProduct.fulfilled` floors at 0 via `Math.max`, so it is
modelled as `Int`. -/
structure ProductsState where
  products : List Product
  categories : Option (List Category × Int)
  loading : Bool
  error : Option String
  currentPage : Int
  itemsPerPage : Int
  searchQuery : String
  totalCount : Int
deriving DecidableEq, Repr

/-- `initialState` (productsSlice.ts lines 23-32). -/
def initialState : ProductsState :=
  { products := []
    categories := none
    loading := false
    error := none
    currentPage := 1
    itemsPerPage := 9
    searchQuery := ""
    totalCount := 0 }

/-- Reducer `setSearchQuery` (productsSlice.ts lines 112-115): replaces
the search text and resets the current page to 1. -/
def setSearchQuery (state : ProductsState) (payload : String) : ProductsState :=
  { state with searchQuery := payload, currentPage := 1 }

/-- Reducer `setCurrentPage` (productsSlice.ts lines 116-118): replaces
the current page with no bounds validation. -/
def setCurrentPage (state : ProductsState) (payload : Int) : ProductsState :=
  { state with currentPage := payload }

/-- Reducer for `fetchProducts.pending` (productsSlice.ts lines 122-125). -/
def fetchProductsPending (state : ProductsState) : ProductsState :=
  { state with loading := true, error := none }

/-- Reducer for `fetchProducts.fulfilled` (productsSlice.ts lines
126-130): the payload is the thunk's `{ products, total }`. -/
def fetchProductsFulfilled (state : ProductsState)
    (payload : List Product × Int) : ProductsState :=
  { state with loading := false, products := payload.1, totalCount := payload.2 }

/-- Reducer for `fetchProducts.rejected` (productsSlice.ts lines 131-134):
`errMsg` is `action.error.message` (possibly absent, JS `||` defaulting). -/
def fetchProductsRejected (state : ProductsState) (errMsg : Option String) :
    ProductsState :=
  { state with loading := false,
               error := some (jsOrStr errMsg "Failed to fetch products") }

/-- Reducer for `deleteProduct.fulfilled` (productsSlice.ts lines
146-149): removes every product whose `id` equals the payload and sets
`totalCount := Math.max(0, totalCount - 1)` — the decrement happens
whether or not the id was present in the list. -/
def deleteProductFulfilled (state : ProductsState) (payload : String) :
    ProductsState :=
  { state with
      products := state.products.filter (fun p => p.id ≠ payload)
      totalCount := max 0 (state.totalCount - 1) }

/-- What a login-form submission does (Auth.tsx `handleSubmit`,
lines 53-76): either it returns early with an error toast, or it proceeds
to call `authService.login(email)` — which performs a network POST
unconditionally (authService.ts lines 8-15). -/
inductive SubmitAction where
  | rejectedClientSide
  | callsLogin (email : String)
deriving DecidableEq, Repr

/-- The client-side validation of `handleSubmit` (Auth.tsx lines 53-63):
`if (!email) { toast(...); return; }` — only the empty string is falsy, so
any non-empty email (including whitespace-only) proceeds to
`login(email)` and hence to the network call. -/
def handleSubmit (email : String) : SubmitAction :=
  if email = "" then .rejectedClientSide else .callsLogin email

/-- Whether a string consists only of whitespace characters (and so is an
"empty or whitespace-only" email in the sense of the specification). -/
def whitespaceOnly (s : String) : Bool :=
  s.toList.all Char.isWhitespace

/-- `totalPages` (Products.tsx line 91):
`Math.max(1, Math.ceil(totalCount / itemsPerPage))`, with JS real-number
division modelled in `ℚ` and `Math.ceil` by `Int.ceil`. -/
def totalPages (totalCount itemsPerPage : Nat) : Int :=
  max 1 ⌈(totalCount : ℚ) / (itemsPerPage : ℚ)⌉

/-- A concrete category record, for witnesses and counterexamples. -/
def mkCategory (id : String) : Category :=
  { id := id, name := "Electronics", image := "img.png", description := none,
    createdAt := "2025-01-01", updatedAt := "2025-01-01" }

/-- A concrete product record with a given identifier, for witnesses and
counterexamples. -/
def mkProduct (id : String) : Product :=
  { id := id, name := "Widget", description := "A widget", images := [],
    price := 10, slug := "widget", createdAt := "2025-01-01",
    updatedAt := "2025-01-01", category := mkCategory "c1" }

/-! ## Helper lemmas -/

/-- The authentication-missing error message does not contain the
substring `'Session expired'`, so `getProducts`' catch block retries it. -/
theorem jsIncludes_auth_msg :
    jsIncludes "No authentication token found" "Session expired" = false := by
  decide

/-- Euclidean-division form of the ceiling: for `0 < b`,
`-((-a) / b) = (a + b - 1) / b` over `ℤ`. -/
theorem neg_ediv_neg_eq_add_pred_ediv (a b : ℤ) (hb : 0 < b) :
    -((-a) / b) = (a + b - 1) / b := by
  have hbne : b ≠ 0 := by omega
  have hq := Int.ediv_add_emod (-a) b
  set q := (-a) / b with hq_def
  set r := (-a) % b with hr_def
  have hr0 : 0 ≤ r := Int.emod_nonneg _ hbne
  have hrb : r < b := Int.emod_lt_of_pos _ hb
  have ha : a + b - 1 = (b - 1 - r) + (-q) * b := by
    have hnq : (-q) * b = -(b * q) := by ring
    linarith [hq]
  rw [ha, Int.add_mul_ediv_right _ _ hbne, Int.ediv_eq_zero_of_lt (by omega) (by omega)]
  omega

/-! ## Claim theorems -/

/-- C1: for `getProducts` hitting HTTP 429 with no `Retry-After` header on
every attempt, the computed backoff delays on attempts 0, 1, 2 are 1000ms,
2000ms, 4000ms (`min(1000ms ⋅ 2^attempt, 30000ms)`), the call is retried
up to 3 times (4 network calls in all), and the 4th consecutive 429
surfaces the rate-limit error without a 4th retry. -/
theorem getProducts_429_backoff_schedule (env : Nat → FetchOutcome) (t : String)
    (ht : t ≠ "")
    (h : ∀ k, k ≤ 3 → ∃ r, env k = .resp r ∧ r.status = 429 ∧ r.retryAfter = none) :
    getProducts env (some t) 0 =
      ⟨.error "Rate limit exceeded. Please try again later.",
        [1000, 2000, 4000], 4⟩ := by
  obtain ⟨r0, he0, hs0, hr0⟩ := h 0 (by omega)
  obtain ⟨r1, he1, hs1, hr1⟩ := h 1 (by omega)
  obtain ⟨r2, he2, hs2, hr2⟩ := h 2 (by omega)
  obtain ⟨r3, he3, hs3, hr3⟩ := h 3 (by omega)
  rw [getProducts, he0]
  rw [getProducts, he1]
  rw [getProducts, he2]
  rw [getProducts, he3]
  simp [hs0, hr0, hs1, hr1, hs2, hr2, hs3, hr3, getAuthHeaders, backoffDelay,
    BASE_DELAY, MAX_RETRIES, ht]

/-- Witness for C1 at the constant all-429 network. -/
theorem getProducts_429_backoff_schedule_witness :
    getProducts
        (fun _ => .resp { status := 429, retryAfter := none, xTotalCount := none,
                          body := .arr [] })
        (some "token") 0 =
      ⟨.error "Rate limit exceeded. Please try again later.",
        [1000, 2000, 4000], 4⟩ :=
  getProducts_429_backoff_schedule _ "token" (by decide)
    (fun _ _ => ⟨_, rfl, rfl, rfl⟩)

/-- C2 (code bug): `getProduct('abc')` whose direct fetch 404s passes the
identifier into the `retryCount` parameter of `getProducts`, so the
fallback list query is unfiltered; if that unfiltered
`GET /products?offset=0&limit=1` returns a product with a different id
("xyz"), `getProduct` returns that unrelated product instead of a
"not found" error; the not-found error is raised only when the unfiltered
query is empty. -/
theorem getProduct_fallback_unfiltered :
    getProduct (some "token") "abc" (.notOk 404) (.ok ([mkProduct "xyz"], 1)) 1 =
        (.ok (some (mkProduct "xyz")), 2)
      ∧ (mkProduct "xyz").id ≠ "abc"
      ∧ getProduct (some "token") "abc" (.notOk 404) (.ok ([], 1)) 1 =
        (.error "Product not found", 2) :=
  ⟨rfl, by decide, rfl⟩

/-- A concrete state for the C3 counterexample and witness: one product
with id "a" in the list, server-reported total 5. -/
def stateA5 : ProductsState :=
  { initialState with products := [mkProduct "a"], totalCount := 5 }

/-- C3 counterexample: deleting id "b", which is absent from the item
list, leaves the list unchanged but still decrements `totalCount` from 5
to 4 — refuting "if the id was absent from the list, both the list and
total are unchanged". -/
theorem removeProduct_absent_total_changes :
    (∀ p ∈ stateA5.products, p.id ≠ "b")
      ∧ (deleteProductFulfilled stateA5 "b").products = stateA5.products
      ∧ stateA5.totalCount = 5
      ∧ (deleteProductFulfilled stateA5 "b").totalCount = 4 := by
  refine ⟨?_, ?_, rfl, ?_⟩ <;> decide

/-- C3 (amended): on `deleteProduct.fulfilled`, the item list loses
exactly the products whose id matches (so its length decreases by exactly
1 when the id occurred exactly once); `totalCount` becomes
`max 0 (totalCount - 1)` — it decreases by 1 whenever it was positive,
never going below 0, even when the id was absent; when the id was absent
the list itself is unchanged. -/
theorem removeProduct_fulfilled_spec (s : ProductsState) (pid : String) :
    (deleteProductFulfilled s pid).products.length
        = s.products.length - s.products.countP (fun p => p.id = pid)
      ∧ ((∀ p ∈ s.products, p.id ≠ pid) →
          (deleteProductFulfilled s pid).products = s.products)
      ∧ (deleteProductFulfilled s pid).totalCount = max 0 (s.totalCount - 1)
      ∧ 0 ≤ (deleteProductFulfilled s pid).totalCount
      ∧ (1 ≤ s.totalCount →
          (deleteProductFulfilled s pid).totalCount = s.totalCount - 1) := by
  refine ⟨?_, ?_, rfl, ?_, ?_⟩
  · show (s.products.filter (fun p => p.id ≠ pid)).length = _
    have h := @List.length_eq_length_filter_add Product s.products
      (fun p => decide (p.id = pid))
    rw [List.countP_eq_length_filter]
    have hcong : s.products.filter (fun p => decide (p.id ≠ pid))
        = s.products.filter (fun p => !decide (p.id = pid)) := by
      apply List.filter_congr
      intro a _
      simp [decide_not]
    rw [hcong]
    omega
  · intro h
    show s.products.filter (fun p => p.id ≠ pid) = s.products
    rw [List.filter_eq_self]
    intro p hp
    simpa using h p hp
  · show 0 ≤ max 0 (s.totalCount - 1)
    exact le_max_left _ _
  · intro h
    show max 0 (s.totalCount - 1) = s.totalCount - 1
    omega

/-- Witness for C3's amended claim at a concrete state where the deleted
id is absent. -/
theorem removeProduct_fulfilled_spec_witness :
    (deleteProductFulfilled stateA5 "b").products = stateA5.products
      ∧ (deleteProductFulfilled stateA5 "b").totalCount = stateA5.totalCount - 1 :=
  ⟨(removeProduct_fulfilled_spec stateA5 "b").2.1 (by decide),
   (removeProduct_fulfilled_spec stateA5 "b").2.2.2.2 (by decide)⟩

/-- C4: response normalization — a bare array of 5 items with no
`x-total-count` header yields those items with total 5; an object with 3
items under `data` and `totalCount = 30` yields those 3 items with total
30; and `getProducts` on a 200 bare-array response returns the normalized
pair. -/
theorem normalize_response_shapes (items5 items3 : List Product) (tok : String)
    (htok : tok ≠ "") (h5 : items5.length = 5) (h3 : items3.length = 3) :
    normalizeProducts none (.arr items5) = (items5, 5)
      ∧ normalizeProducts none (.obj none (some items3) none (some 30)) = (items3, 30)
      ∧ getProducts
          (fun _ => .resp { status := 200, retryAfter := none,
                            xTotalCount := none, body := .arr items5 })
          (some tok) 0 = ⟨.ok (items5, 5), [], 1⟩ := by
  refine ⟨by simp [normalizeProducts, h5], by simp [normalizeProducts, jsOrNat], ?_⟩
  rw [getProducts]
  simp [getAuthHeaders, statusOk, normalizeProducts, h5, htok]

/-- Witness for C4 at concrete 5- and 3-item lists. -/
theorem normalize_response_shapes_witness :
    normalizeProducts none (.arr (List.replicate 5 (mkProduct "p"))) =
        (List.replicate 5 (mkProduct "p"), 5)
      ∧ normalizeProducts none
          (.obj none (some (List.replicate 3 (mkProduct "q"))) none (some 30)) =
        (List.replicate 3 (mkProduct "q"), 30)
      ∧ getProducts
          (fun _ => .resp { status := 200, retryAfter := none, xTotalCount := none,
                            body := .arr (List.replicate 5 (mkProduct "p")) })
          (some "token") 0 = ⟨.ok (List.replicate 5 (mkProduct "p"), 5), [], 1⟩ :=
  normalize_response_shapes (List.replicate 5 (mkProduct "p"))
    (List.replicate 3 (mkProduct "q")) "token" (by decide) (by simp) (by simp)

/-- C5: `fetchProducts` transitions — pending sets `loading := true`;
fulfilled sets `loading := false` and replaces `products`/`totalCount`
with the payload; rejected sets `loading := false`, records the error
message, and leaves `products` and `totalCount` untouched. -/
theorem fetchProducts_state_transitions (s : ProductsState)
    (payload : List Product × Int) (msg : Option String) :
    (fetchProductsPending s).loading = true
      ∧ (fetchProductsFulfilled s payload).loading = false
      ∧ (fetchProductsFulfilled s payload).products = payload.1
      ∧ (fetchProductsFulfilled s payload).totalCount = payload.2
      ∧ (fetchProductsRejected s msg).loading = false
      ∧ (fetchProductsRejected s msg).error
          = some (jsOrStr msg "Failed to fetch products")
      ∧ (fetchProductsRejected s msg).products = s.products
      ∧ (fetchProductsRejected s msg).totalCount = s.totalCount :=
  ⟨rfl, rfl, rfl, rfl, rfl, rfl, rfl, rfl⟩

/-- C6: with no stored token, every API-client operation fails with the
authentication error and performs zero network calls (for `getProducts`
the catch block retries the thrown auth error through the backoff
schedule, still without ever reaching the network). -/
theorem no_token_fails_before_network
    (envP : Nat → FetchOutcome) (envS : SearchResp) (envM : MutResp)
    (identifier : String) (direct : DirectFetch)
    (fallback : Except String (List Product × Nat)) (fc : Nat)
    (searchText : Option String) (offset limit : Nat)
    (respond : CategoriesUrl → CatResp) :
    getProducts envP none 0
        = ⟨.error "No authentication token found", [1000, 2000, 4000], 0⟩
      ∧ searchProducts none envS = (.error "No authentication token found", 0)
      ∧ getProduct none identifier direct fallback fc
          = (.error "No authentication token found", 0)
      ∧ createProduct none envM = (.error "No authentication token found", 0)
      ∧ updateProduct none envM = (.error "No authentication token found", 0)
      ∧ deleteProduct none envM = (.error "No authentication token found", 0)
      ∧ getCategories none searchText offset limit respond
          = ⟨.error "No authentication token found", 0, none⟩ := by
  refine ⟨?_, rfl, rfl, rfl, rfl, rfl, rfl⟩
  rw [getProducts]
  rw [getProducts]
  rw [getProducts]
  rw [getProducts]
  simp [getAuthHeaders, MAX_RETRIES, jsIncludes_auth_msg, backoffDelay, BASE_DELAY]

/-- C7 counterexample: on a 400 response whose parseable body carries the
message "Price must be positive", `createProduct` still fails with the
fixed generic message — the server's message is not surfaced, refuting
the claim for `createProduct`. -/
theorem createProduct_ignores_server_message :
    createProduct (some "token")
        { status := 400, message := some "Price must be positive",
          record := mkProduct "p1" }
        = (.error "Failed to create product", 1)
      ∧ "Failed to create product" ≠ "Price must be positive" :=
  ⟨rfl, by decide⟩

/-- C7 (amended): on a non-success status, `updateProduct` fails with the
server's `message` from the response body, defaulting to a generic
message when the body is not parseable (or the field absent/empty), while
`createProduct` always fails with its fixed generic message without
reading the body. -/
theorem create_update_error_messages (tok : String) (htok : tok ≠ "")
    (env : MutResp) (h : statusOk env.status = false) :
    updateProduct (some tok) env
        = (.error (jsOrStr env.message "Failed to update product"), 1)
      ∧ createProduct (some tok) env = (.error "Failed to create product", 1) := by
  unfold updateProduct createProduct getAuthHeaders
  simp [h, htok]

/-- Witness for C7's amended claim at a 400 response with a parseable
message. -/
theorem create_update_error_messages_witness :
    updateProduct (some "token")
        { status := 400, message := some "Price must be positive",
          record := mkProduct "p1" }
        = (.error "Price must be positive", 1)
      ∧ createProduct (some "token")
        { status := 400, message := some "Price must be positive",
          record := mkProduct "p1" }
        = (.error "Failed to create product", 1) := by
  have h := create_update_error_messages "token" (by decide)
    { status := 400, message := some "Price must be positive",
      record := mkProduct "p1" } (by decide)
  simpa [jsOrStr] using h

/-- C8 counterexample: a whitespace-only email (" ") is not rejected by
the client-side check — `handleSubmit` proceeds to `login`, which makes
the network call — refuting the claim for whitespace-only emails. -/
theorem whitespace_email_not_rejected :
    whitespaceOnly " " = true ∧ handleSubmit " " = .callsLogin " " :=
  ⟨by decide, by decide⟩

/-- C8 (amended): a login attempt with an empty email is rejected
client-side before any network call; any non-empty email — including a
whitespace-only one — proceeds to `login` and hence to the network
call. -/
theorem login_empty_email_rejected_only (e : String) (he : e ≠ "") :
    handleSubmit "" = .rejectedClientSide ∧ handleSubmit e = .callsLogin e := by
  refine ⟨rfl, ?_⟩
  unfold handleSubmit
  simp [he]

/-- Witness for C8's amended claim at a concrete non-empty email. -/
theorem login_empty_email_rejected_only_witness :
    handleSubmit "" = .rejectedClientSide
      ∧ handleSubmit "user@mail.com" = .callsLogin "user@mail.com" :=
  login_empty_email_rejected_only "user@mail.com" (by decide)

/-- C9: for every items-per-page `p > 0` and total `t ≥ 0`, the computed
`totalPages` (real-division ceiling in the source) equals
`max 1 (⌈t/p⌉)` computed as the natural number `max 1 ((t + p - 1) / p)`. -/
theorem totalPages_eq_max_one_ceil (t p : ℕ) (hp : 0 < p) :
    totalPages t p = ((max 1 ((t + p - 1) / p) : ℕ) : ℤ) := by
  unfold totalPages
  have hx : (t : ℚ) / (p : ℚ) = -(((-(t : ℤ) : ℤ) : ℚ) / ((p : ℕ) : ℚ)) := by
    push_cast
    ring
  rw [hx, Int.ceil_neg, Rat.floor_intCast_div_natCast,
    neg_ediv_neg_eq_add_pred_ediv _ _ (by exact_mod_cast hp)]
  have h1 : ((t : ℤ) + (p : ℤ) - 1) / (p : ℤ) = (((t + p - 1) / p : ℕ) : ℤ) := by
    rw [Int.ofNat_ediv]
    congr 1
    omega
  rw [h1]
  omega

/-- Witness for C9 at `t = 30`, `p = 9` (9 items per page, 30 items:
4 pages). -/
theorem totalPages_eq_max_one_ceil_witness :
    totalPages 30 9 = ((max 1 ((30 + 9 - 1) / 9) : ℕ) : ℤ) :=
  totalPages_eq_max_one_ceil 30 9 (by decide)

/-- The URL `getCategories` requests is exactly `categoriesUrl` of its
arguments, whatever the response status. -/
theorem getCategories_url_requested (tok : String) (htok : tok ≠ "")
    (searchText : Option String)
    (offset limit : Nat) (respond : CategoriesUrl → CatResp) :
    (getCategories (some tok) searchText offset limit respond).url
      = some (categoriesUrl searchText offset limit) := by
  unfold getCategories getAuthHeaders
  by_cases h : statusOk (respond (categoriesUrl searchText offset limit)).status <;>
    simp [h, htok]

/-- C10: for every non-empty `searchText`, `getCategories` queries the
category search endpoint and its `offset`/`limit` arguments are silently
ignored (the whole call result is independent of them, and the requested
URL carries no pagination parameters); `offset` and `limit` reach the URL
only when `searchText` is absent or empty. -/
theorem getCategories_search_ignores_pagination (tok s : String)
    (htok : tok ≠ "") (hs : s ≠ "")
    (o₁ l₁ o₂ l₂ : Nat) (respond : CategoriesUrl → CatResp) :
    (getCategories (some tok) (some s) o₁ l₁ respond).url = some (.search s)
      ∧ getCategories (some tok) (some s) o₁ l₁ respond
          = getCategories (some tok) (some s) o₂ l₂ respond
      ∧ (getCategories (some tok) none o₁ l₁ respond).url = some (.list o₁ l₁)
      ∧ (getCategories (some tok) (some "") o₁ l₁ respond).url
          = some (.list o₁ l₁) := by
  have hu : ∀ o l : Nat, categoriesUrl (some s) o l = .search s := by
    intro o l
    unfold categoriesUrl jsTruthyStr
    simp [hs]
  refine ⟨?_, ?_, ?_, ?_⟩
  · rw [getCategories_url_requested tok htok, hu]
  · unfold getCategories getAuthHeaders
    rw [hu, hu]
  · rw [getCategories_url_requested tok htok]
    rfl
  · rw [getCategories_url_requested tok htok]
    rfl

/-- Witness for C10 at a concrete search text, two different offset/limit
pairs, and a constant network. -/
theorem getCategories_search_ignores_pagination_witness :
    (getCategories (some "token") (some "toys") 0 10
        (fun _ => ⟨200, none, []⟩)).url = some (.search "toys")
      ∧ getCategories (some "token") (some "toys") 0 10 (fun _ => ⟨200, none, []⟩)
          = getCategories (some "token") (some "toys") 40 5 (fun _ => ⟨200, none, []⟩)
      ∧ (getCategories (some "token") none 0 10
          (fun _ => ⟨200, none, []⟩)).url = some (.list 0 10)
      ∧ (getCategories (some "token") (some "") 0 10
          (fun _ => ⟨200, none, []⟩)).url = some (.list 0 10) :=
  getCategories_search_ignores_pagination "token" "toys" (by decide) (by decide)
    0 10 40 5 (fun _ => ⟨200, none, []⟩)

end ProductApp


